import Mathlib

/-!
Verification of the APIBouncer control-center engine (`apibouncer_gui.pyw`).

Python strings are embedded as `List Char`, ints as `Int`/`Nat`, floats as `ℚ`.
The `SessionManager` (package `apibouncer`, not part of the GUI file) is
embedded as an explicit pair of snapshots: the in-memory state `mem` and the
durable store `disk`; GUI operations are pure functions on that pair.
-/

namespace APIBouncer

/-- Characters of a Python string. -/
abbrev PyStr := List Char

/-- Worker for `str.split("-")`: `acc` holds the (reversed) characters of the
current segment. -/
def splitDashAux : PyStr → PyStr → List PyStr
  | [], acc => [acc.reverse]
  | c :: cs, acc =>
      if c = '-' then acc.reverse :: splitDashAux cs []
      else splitDashAux cs (c :: acc)

/-- Python `session_id.split("-")`: every dash separates segments, empty
segments are kept. -/
def splitDash (s : PyStr) : List PyStr := splitDashAux s []

/-- The fall-through branch of `mask_session_id` (source lines 176-177):
legacy short IDs show the first 4 characters followed by `****`. -/
def maskLegacy (session_id : PyStr) : PyStr :=
  if session_id.length > 4 then session_id.take 4 ++ "****".toList
  else session_id

/-- `mask_session_id` (source lines 166-177): IDs of the form
`APBN-XXXX-XXXXXXXXXXXX` display as `APBN-XXXX-****`. -/
def mask_session_id (session_id : PyStr) : PyStr :=
  if ("APBN-".toList.isPrefixOf session_id) ∧ session_id.length > 10 then
    let parts := splitDash session_id
    if parts.length ≥ 3 then
      parts.getD 0 [] ++ '-' :: (parts.getD 1 [] ++ "-****".toList)
    else
      maskLegacy session_id
  else
    maskLegacy session_id

theorem splitDashAux_append_dash (p : PyStr) (hp : '-' ∉ p) (cs acc : PyStr) :
    splitDashAux (p ++ '-' :: cs) acc = (acc.reverse ++ p) :: splitDashAux cs [] := by
  induction p generalizing acc with
  | nil => simp [splitDashAux]
  | cons c p ih =>
      have hc : c ≠ '-' := fun h => hp (by simp [h])
      have hp' : '-' ∉ p := fun h => hp (List.mem_cons_of_mem _ h)
      simp [splitDashAux, hc, ih hp']

theorem splitDash_decompose (a rest : PyStr) (ha : '-' ∉ a) :
    splitDash ("APBN-".toList ++ a ++ '-' :: rest)
      = "APBN".toList :: a :: splitDash rest := by
  have h1 : ("APBN-".toList ++ a ++ '-' :: rest)
      = "APBN".toList ++ '-' :: (a ++ '-' :: rest) := by simp
  have h2 : '-' ∉ "APBN".toList := by decide
  unfold splitDash
  rw [h1, splitDashAux_append_dash _ h2, splitDashAux_append_dash _ ha]
  simp [splitDash]

theorem isPrefixOf_self_append (p s : PyStr) : p.isPrefixOf (p ++ s) = true := by
  induction p with
  | nil => simp [List.isPrefixOf]
  | cons c p ih => simp [List.isPrefixOf, ih]

theorem splitDashAux_ne_nil (s acc : PyStr) : splitDashAux s acc ≠ [] := by
  induction s generalizing acc with
  | nil => simp [splitDashAux]
  | cons c cs ih =>
      simp only [splitDashAux]
      split
      · exact List.cons_ne_nil _ _
      · exact ih _

example : mask_session_id "APBN-1234-ABCDEF".toList = "APBN-1234-****".toList := by decide

example : mask_session_id "short".toList = "shor****".toList := by decide

/-- C5: every session id of the form `APBN-` + short segment + `-` + secret
remainder (so: it starts with the fixed prefix, has at least three
dash-separated segments) that is longer than 10 characters is masked to
exactly the prefix, the short public segment and `-****`; no character of the
secret remainder appears in the output. -/
theorem C5_mask_session_id (a rest : PyStr) (ha : '-' ∉ a)
    (hlen : ("APBN-".toList ++ a ++ '-' :: rest).length > 10) :
    mask_session_id ("APBN-".toList ++ a ++ '-' :: rest)
      = "APBN-".toList ++ a ++ "-****".toList := by
  have hpre : ("APBN-".toList.isPrefixOf ("APBN-".toList ++ a ++ '-' :: rest)) = true := by
    rw [List.append_assoc]
    exact isPrefixOf_self_append _ _
  have hsplit := splitDash_decompose a rest ha
  have hne : splitDashAux rest [] ≠ [] := splitDashAux_ne_nil rest []
  unfold mask_session_id
  rw [if_pos ⟨hpre, hlen⟩]
  simp only [hsplit]
  have hlen3 : ("APBN".toList :: a :: splitDash rest).length ≥ 3 := by
    have : (splitDash rest).length ≥ 1 := by
      rcases List.exists_cons_of_ne_nil hne with ⟨x, xs, hx⟩
      simp [splitDash, hx]
    simp only [List.length_cons]
    omega
  rw [if_pos hlen3]
  simp

/-- Witness for C5 at a concrete session id. -/
theorem C5_witness :
    mask_session_id ("APBN-".toList ++ "1234".toList ++ '-' :: "SECRETSECRET".toList)
      = "APBN-".toList ++ "1234".toList ++ "-****".toList :=
  C5_mask_session_id "1234".toList "SECRETSECRET".toList (by decide) (by decide)

/-- Modelled from the spec: `matches(value, pattern_list)` of the
PolicyMatcher, whose implementation lives in the `apibouncer` package and is
not under `src/`. The spec says: `*` is a full wildcard; a pattern containing
`*` matches by prefix/suffix segment (`flux-*` matches `flux-dev`); other
patterns require exact match. A pattern with a `*` is split at the star into
the leading segment (matched as a prefix) and the trailing segment (matched as
a suffix). -/
def matchesPattern (value pattern : PyStr) : Bool :=
  if pattern = ['*'] then true
  else if '*' ∈ pattern then
    let pre := pattern.takeWhile (fun c => c ≠ '*')
    let suf := (pattern.reverse.takeWhile (fun c => c ≠ '*')).reverse
    pre.isPrefixOf value && suf.isSuffixOf value
  else value == pattern

/-- Modelled from the spec: a value matches a pattern list when it matches any
pattern in the list. -/
def matchesList (value : PyStr) (patterns : List PyStr) : Bool :=
  patterns.any (fun p => matchesPattern value p)

/-- C7: the pattern `*` matches every value; `flux-*` matches `flux-dev` and
`flux-schnell` but matches neither `flux` nor `other-dev`; a pattern without
`*` matches exactly the values equal to it. -/
theorem C7_wildcard_matching :
    (∀ value : PyStr, matchesPattern value ['*'] = true)
    ∧ matchesPattern "flux-dev".toList "flux-*".toList = true
    ∧ matchesPattern "flux-schnell".toList "flux-*".toList = true
    ∧ matchesPattern "flux".toList "flux-*".toList = false
    ∧ matchesPattern "other-dev".toList "flux-*".toList = false
    ∧ ∀ (value pattern : PyStr), '*' ∉ pattern →
        (matchesPattern value pattern = true ↔ value = pattern) := by
  refine ⟨fun value => rfl, by decide, by decide, by decide, by decide, ?_⟩
  intro value pattern hstar
  have hne : pattern ≠ ['*'] := by
    intro h
    exact hstar (h ▸ List.mem_singleton.mpr rfl)
  simp [matchesPattern, hne, hstar]

/-- Witness for C7: the exact-match clause at a concrete value and pattern. -/
theorem C7_witness :
    matchesPattern "gpt-image-1.5".toList "gpt-image-1.5".toList = true :=
  (C7_wildcard_matching.2.2.2.2.2 "gpt-image-1.5".toList "gpt-image-1.5".toList
    (by decide)).mpr rfl

/-- Outcome of a single model-policy evaluation. -/
inductive ModelDecision where
  | allow : ModelDecision
  | deny : ModelDecision
deriving DecidableEq

/-- The per-session model policy fields used by model evaluation. -/
structure ModelPolicy where
  allowed_models : List PyStr
  banned_models : List PyStr
  require_model_whitelist : Bool

/-- Modelled from the spec: the model evaluation order of the PolicyMatcher
(implementation in the `apibouncer` package, not under `src/`): (1) global ban
denies; (2) session ban denies; (3) `require_model_whitelist` true with empty
allow list denies; (4) non-empty allow list with no match denies; (5)
otherwise allow. -/
def evaluate_model (global_banned : List PyStr) (p : ModelPolicy) (model : PyStr) :
    ModelDecision :=
  if matchesList model global_banned then ModelDecision.deny
  else if matchesList model p.banned_models then ModelDecision.deny
  else if p.require_model_whitelist && p.allowed_models.isEmpty then ModelDecision.deny
  else if !p.allowed_models.isEmpty && !matchesList model p.allowed_models then
    ModelDecision.deny
  else ModelDecision.allow

/-- C6: a globally banned model is denied for every session, even when the
session's own allow list includes it; and a request is allowed exactly when no
global ban matches, no session ban matches, the whitelist requirement is not
violated, and the (non-empty) allow list matches or the allow list is empty. -/
theorem C6_model_evaluation_order :
    (∀ (global_banned : List PyStr) (p : ModelPolicy) (model : PyStr),
      matchesList model global_banned = true →
        evaluate_model global_banned p model = ModelDecision.deny)
    ∧ ∀ (global_banned : List PyStr) (p : ModelPolicy) (model : PyStr),
        evaluate_model global_banned p model = ModelDecision.allow ↔
          (matchesList model global_banned = false
            ∧ matchesList model p.banned_models = false
            ∧ ¬(p.require_model_whitelist = true ∧ p.allowed_models = [])
            ∧ (p.allowed_models = [] ∨ matchesList model p.allowed_models = true)) := by
  constructor
  · intro global_banned p model h
    simp [evaluate_model, h]
  · intro global_banned p model
    simp only [evaluate_model]
    rcases hg : matchesList model global_banned with _ | _ <;>
      rcases hb : matchesList model p.banned_models with _ | _ <;>
      rcases hw : p.require_model_whitelist with _ | _ <;>
      rcases he : p.allowed_models.isEmpty with _ | _ <;>
      rcases hm : matchesList model p.allowed_models with _ | _ <;>
      simp_all [List.isEmpty_iff]

/-- Witness for C6: the spec's `dall-e-2` example — globally banned, denied
even though the session allow list contains exactly `dall-e-2`. -/
theorem C6_witness :
    evaluate_model ["dall-e-2".toList]
      { allowed_models := ["dall-e-2".toList], banned_models := [],
        require_model_whitelist := true }
      "dall-e-2".toList = ModelDecision.deny :=
  C6_model_evaluation_order.1 ["dall-e-2".toList]
    { allowed_models := ["dall-e-2".toList], banned_models := [],
      require_model_whitelist := true }
    "dall-e-2".toList (by decide)

/-- A session record as the GUI reads and writes it. Money amounts (Python
floats) are embedded as rationals. `total_blocked` and `amount_saved` are the
two extra attributes written by the monitor's clear-history action; they are
distinct from the `blocked_requests` / `blocked_cost` fields that the GUI
displays. -/
structure Session where
  id : String
  name : String
  status : String
  allowed_keys : List String
  allowed_providers : List String
  allowed_qualities : List String
  banned_qualities : List String
  max_duration : Int
  rate_limit : Int
  budget_limit : ℚ
  total_requests : Nat
  allowed_requests : Nat
  blocked_requests : Nat
  total_cost : ℚ
  blocked_cost : ℚ
  total_blocked : Nat
  amount_saved : ℚ
  barrier_mode : Option Bool
deriving DecidableEq, Inhabited

/-- A barrier-mode pending request. -/
structure PendingRequest where
  id : String
  session_id : String
  resolution : String
deriving DecidableEq

/-- A history (attempt) record, reduced to the fields the embedded operations
touch. -/
structure HistoryEntry where
  session_id : String
  status : String
  cost : ℚ
deriving DecidableEq

/-- The global settings dict entries the GUI operations read and write. -/
structure Settings where
  panic_mode : Bool
  barrier_mode : Bool
  enable_tray : Bool
  enable_notifications : Bool
  auto_ban_threshold : Nat
  warning_threshold : Nat
  max_history : Nat
  global_banned_models : List String
deriving DecidableEq

/-- One snapshot of the shared store: sessions, history, pending queue,
settings. -/
structure Store where
  sessions : List Session
  history : List HistoryEntry
  pending : List PendingRequest
  settings : Settings
deriving DecidableEq

/-- The SessionManager as the GUI sees it: its in-memory state `mem` plus the
durable snapshot `disk`. -/
structure App where
  mem : Store
  disk : Store
deriving DecidableEq

/-- Modelled from the spec: `_load()` replaces the in-memory state with the
latest durable snapshot (`load()` returns the latest durable snapshot). -/
def mgr_load (a : App) : App := { a with mem := a.disk }

/-- Modelled from the spec: `_save()` persists the whole in-memory snapshot
atomically; conflict policy is last-write-wins, no merge. -/
def mgr_save (a : App) : App := { a with disk := a.mem }

/-- Modelled from the spec: `get_session` looks the id up in the in-memory
snapshot. -/
def get_session (st : Store) (sid : String) : Option Session :=
  st.sessions.find? (fun s => s.id == sid)

/-- Mutating the session object returned by `get_session` mutates it inside
the in-memory snapshot; embedded as an update of the session with that id. -/
def setSession (sid : String) (f : Session → Session) (st : Store) : Store :=
  { st with sessions := st.sessions.map (fun s => if s.id == sid then f s else s) }

/-- `save_global_bans` (source lines 3532-3536): write the parsed model list
into `settings["global_banned_models"]` and `_save()`; no reload. -/
def save_global_bans (models : List String) (a : App) : App :=
  mgr_save { a with
    mem := { a.mem with settings := { a.mem.settings with global_banned_models := models } } }

/-- `save_optional` (source lines 3597-3601): write the tray, notification and
barrier-mode checkbox values into settings and `_save()`; the pending queue is
not touched. -/
def save_optional (tray notif barrier : Bool) (a : App) : App :=
  mgr_save { a with
    mem := { a.mem with settings := { a.mem.settings with
      enable_tray := tray, enable_notifications := notif, barrier_mode := barrier } } }

/-- Modelled from the spec: `approve_all_requests` resolves every pending
entry in one durable update, and resolved entries are removed. -/
def approve_all_requests (a : App) : App :=
  mgr_save { a with mem := { a.mem with pending := [] } }

/-- `turn_off_barrier_mode` (source lines 743-754): set
`settings["barrier_mode"] = False`, `_save()`, then auto-approve all pending
requests. -/
def turn_off_barrier_mode (a : App) : App :=
  approve_all_requests (mgr_save { a with
    mem := { a.mem with settings := { a.mem.settings with barrier_mode := false } } })

/-- `apply_budget` in the live monitor (source lines 2251-2259): parse the
entry as a float (`none` embeds a `ValueError`, which the code swallows), look
the session up in the in-memory state, clamp to 0, `_save()`; no reload. -/
def apply_budget (sid : String) (entry : Option ℚ) (a : App) : App :=
  match entry with
  | none => a
  | some v =>
      match get_session a.mem sid with
      | none => a
      | some _ =>
          mgr_save { a with
            mem := setSession sid (fun s => { s with budget_limit := max 0 v }) a.mem }

/-- `apply_rate` in the live monitor (source lines 2282-2290), analogous to
`apply_budget` for the rate limit. -/
def apply_rate (sid : String) (entry : Option Int) (a : App) : App :=
  match entry with
  | none => a
  | some v =>
      match get_session a.mem sid with
      | none => a
      | some _ =>
          mgr_save { a with
            mem := setSession sid (fun s => { s with rate_limit := max 0 v }) a.mem }

/-- The confirmed branch of the monitor's `clear_session_history` closure
(source lines 2302-2312): zero `total_cost`, `total_requests`,
`total_blocked`, `amount_saved` on the session object, clear the session's
history (the manager call is modelled from the spec as dropping that session's
history records), then `_save()`. `allowed_requests`, `blocked_requests` and
`blocked_cost` are not touched. -/
def clear_session_history (sid : String) (a : App) : App :=
  match get_session a.mem sid with
  | none => a
  | some _ =>
      let mem1 := setSession sid
        (fun s => { s with total_cost := 0, total_requests := 0,
                           total_blocked := 0, amount_saved := 0 }) a.mem
      let mem2 := { mem1 with
        history := mem1.history.filter (fun h => h.session_id ≠ sid) }
      mgr_save { a with mem := mem2 }

/-- A concrete session used for evaluation: 3 total requests, 2 allowed, 1
blocked, $5 spent, $2 saved. -/
def exSession : Session :=
  { id := "APBN-1001-S", name := "demo", status := "active",
    allowed_keys := [], allowed_providers := [], allowed_qualities := [],
    banned_qualities := [], max_duration := 0, rate_limit := 0,
    budget_limit := 10, total_requests := 3, allowed_requests := 2,
    blocked_requests := 1, total_cost := 5, blocked_cost := 2,
    total_blocked := 1, amount_saved := 2, barrier_mode := none }

/-- Concrete global settings with barrier mode on. -/
def exSettings : Settings :=
  { panic_mode := false, barrier_mode := true, enable_tray := false,
    enable_notifications := false, auto_ban_threshold := 10,
    warning_threshold := 5, max_history := 1000, global_banned_models := [] }

/-- A concrete outstanding pending request. -/
def exPending : PendingRequest :=
  { id := "req1", session_id := "APBN-1001-S", resolution := "pending" }

/-- A concrete snapshot holding the example session and one pending request. -/
def exStore : Store :=
  { sessions := [exSession], history := [], pending := [exPending],
    settings := exSettings }

/-- A manager whose in-memory state agrees with the durable store. -/
def exApp : App := { mem := exStore, disk := exStore }

/-- A durable snapshot that a concurrent process has changed since this
manager last loaded: panic mode was switched on durably. -/
def staleStore : Store :=
  { exStore with settings := { exSettings with panic_mode := true } }

/-- A manager holding a stale in-memory snapshot: the durable store has moved
on (panic mode on) since the last load. -/
def staleApp : App := { mem := exStore, disk := staleStore }

/-- The spec's session counter invariant. -/
def counter_invariant (s : Session) : Prop :=
  s.total_requests = s.allowed_requests + s.blocked_requests

instance (s : Session) : Decidable (counter_invariant s) := by
  unfold counter_invariant
  infer_instance

/-- The example session after the monitor's clear-history action: the four
attributes assigned by the closure are zeroed, everything else untouched. -/
def exSessionCleared : Session :=
  { exSession with total_cost := 0, total_requests := 0,
                   total_blocked := 0, amount_saved := 0 }

/-- C1: the claim says `total_requests = allowed_requests + blocked_requests`
after every operation, but the monitor's clear-history action zeroes
`total_requests` (and the stale attributes `total_blocked` / `amount_saved`)
while leaving `allowed_requests = 2` and `blocked_requests = 1`, so the
persisted session violates the invariant. -/
theorem C1_clear_history_breaks_counter_invariant :
    counter_invariant exSession
    ∧ (clear_session_history exSession.id exApp).disk.sessions = [exSessionCleared]
    ∧ ¬ counter_invariant exSessionCleared := by
  refine ⟨by decide, by decide, by decide⟩

/-- Counterexample to C3 as stated: clearing the example session's history
drops its `total_cost` from 5 to 0, a strict decrease. -/
theorem C3_counterexample_total_cost_decreases :
    exSession.total_cost = 5
    ∧ ((clear_session_history exSession.id exApp).disk.sessions.headI).total_cost = 0
    ∧ ((clear_session_history exSession.id exApp).disk.sessions.headI).total_cost
        < exSession.total_cost := by
  refine ⟨by decide, by decide, by decide⟩

/-- C3 (amended): the quick-control budget and rate operations change no
session's `total_cost` or `blocked_cost`; the clear-history action leaves
every `blocked_cost` unchanged but sets the target session's `total_cost` to
0 — so both counters are non-decreasing except for that explicit reset of
`total_cost`. -/
theorem C3_amended_cost_monotonicity :
    ∀ (a : App) (sid : String) (q : Option ℚ) (r : Option Int),
      ((apply_budget sid q a).mem.sessions.map (fun s => (s.total_cost, s.blocked_cost))
          = a.mem.sessions.map (fun s => (s.total_cost, s.blocked_cost)))
      ∧ ((apply_rate sid r a).mem.sessions.map (fun s => (s.total_cost, s.blocked_cost))
          = a.mem.sessions.map (fun s => (s.total_cost, s.blocked_cost)))
      ∧ ((clear_session_history sid a).mem.sessions.map (fun s => s.blocked_cost)
          = a.mem.sessions.map (fun s => s.blocked_cost))
      ∧ ((clear_session_history sid a).mem.sessions.map (fun s => s.total_cost)
          = a.mem.sessions.map (fun s => if s.id == sid then 0 else s.total_cost)) := by
  intro a sid q r
  refine ⟨?_, ?_, ?_, ?_⟩
  · rcases q with _ | v
    · rfl
    · rcases hs : get_session a.mem sid with _ | s
      · simp [apply_budget, hs]
      · simp only [apply_budget, hs, mgr_save, setSession, List.map_map]
        congr 1
        funext x
        by_cases hx : x.id = sid <;> simp [hx]
  · rcases r with _ | v
    · rfl
    · rcases hs : get_session a.mem sid with _ | s
      · simp [apply_rate, hs]
      · simp only [apply_rate, hs, mgr_save, setSession, List.map_map]
        congr 1
        funext x
        by_cases hx : x.id = sid <;> simp [hx]
  · rcases hs : get_session a.mem sid with _ | s
    · simp [clear_session_history, hs]
    · simp only [clear_session_history, hs, mgr_save, setSession, List.map_map]
      congr 1
      funext x
      by_cases hx : x.id = sid <;> simp [hx]
  · rcases hs : get_session a.mem sid with _ | s
    · have hall := List.find?_eq_none.mp hs
      simp only [clear_session_history, hs]
      exact (List.map_congr_left (fun x hx => by simp [hall x hx])).symm
    · simp only [clear_session_history, hs, mgr_save, setSession, List.map_map]
      congr 1
      funext x
      by_cases hx : x.id = sid <;> simp [hx]

/-- Counterexample to C2 as stated: saving the optional-features settings with
the barrier checkbox unchecked sets `barrier_mode` to false and persists, yet
the outstanding pending request is still in the queue, unresolved. -/
theorem C2_counterexample_save_optional_strands_pending :
    (save_optional false false false exApp).disk.settings.barrier_mode = false
    ∧ (save_optional false false false exApp).disk.pending = [exPending]
    ∧ exPending.resolution = "pending" := by
  refine ⟨rfl, rfl, rfl⟩

/-- C2 (amended): the barrier window's dedicated turn-off operation sets
`barrier_mode` to false and auto-approves (removes) every pending entry in the
same action; the settings-tab save with the barrier checkbox unchecked also
sets `barrier_mode` to false but leaves the pending queue exactly as it was,
resolving nothing. -/
theorem C2_amended_barrier_disable :
    ∀ (a : App) (tray notif : Bool),
      ((turn_off_barrier_mode a).disk.settings.barrier_mode = false
        ∧ (turn_off_barrier_mode a).disk.pending = []
        ∧ (turn_off_barrier_mode a).mem.pending = [])
      ∧ ((save_optional tray notif false a).disk.settings.barrier_mode = false
        ∧ (save_optional tray notif false a).disk.pending = a.mem.pending) :=
  fun _ _ _ => ⟨⟨rfl, rfl, rfl⟩, rfl, rfl⟩

/-- The behaviour C4 claims for the global-bans save: re-load the latest
durable snapshot immediately before mutating and saving. Written from the
words of the spec, for comparison with `save_global_bans` as coded. -/
def save_global_bans_reloading (models : List String) (a : App) : App :=
  save_global_bans models (mgr_load a)

/-- Counterexample to C4 as stated: with a stale in-memory snapshot (a
concurrent process durably switched panic mode on after this window last
loaded), the coded `save_global_bans` persists a different snapshot than the
claimed reload-first behaviour — it writes the stale `panic_mode = false` back
to disk, losing the concurrent update. -/
theorem C4_counterexample_stale_overwrite :
    (save_global_bans ["bad-model"] staleApp).disk
      ≠ (save_global_bans_reloading ["bad-model"] staleApp).disk
    ∧ staleApp.disk.settings.panic_mode = true
    ∧ (save_global_bans ["bad-model"] staleApp).disk.settings.panic_mode = false := by
  refine ⟨by decide, rfl, rfl⟩

/-- C4 (amended): `update_monitor` re-loads (`_load` makes the in-memory state
the durable snapshot), but the mutating `save_global_bans` and `apply_budget`
do not re-load: the snapshot they persist depends only on the in-memory state,
so whatever is on disk at that moment is overwritten wholesale
(last-write-wins, no merge). -/
theorem C4_amended_mutations_use_memory_only (models : List String) (sid : String)
    (v : ℚ) (a b : App) (hmem : a.mem = b.mem) :
    (save_global_bans models a).disk = (save_global_bans models b).disk
    ∧ ((get_session a.mem sid).isSome →
        (apply_budget sid (some v) a).disk = (apply_budget sid (some v) b).disk)
    ∧ (mgr_load a).mem = a.disk := by
  refine ⟨?_, ?_, rfl⟩
  · simp [save_global_bans, mgr_save, hmem]
  · intro hsome
    rcases hs : get_session a.mem sid with _ | s
    · rw [hs] at hsome
      exact absurd hsome (by simp)
    · have hsb : get_session b.mem sid = some s := hmem ▸ hs
      simp [apply_budget, mgr_save, hs, hsb, setSession, hmem]

/-- Witness for C4 (amended): two managers sharing the in-memory snapshot but
with different durable stores persist identical snapshots. -/
theorem C4_witness :
    (save_global_bans ["bad-model"] staleApp).disk
        = (save_global_bans ["bad-model"] exApp).disk
    ∧ ((get_session staleApp.mem "APBN-1001-S").isSome →
        (apply_budget "APBN-1001-S" (some 7) staleApp).disk
          = (apply_budget "APBN-1001-S" (some 7) exApp).disk)
    ∧ (mgr_load staleApp).mem = staleApp.disk :=
  C4_amended_mutations_use_memory_only ["bad-model"] "APBN-1001-S" 7 staleApp exApp rfl

/-- The session-permissions check (source line 1685): a key is allowed when
the session's allowed-keys list is empty (Python falsy) or contains the
key. -/
def key_is_allowed (allowed_keys : List String) (key_id : String) : Bool :=
  allowed_keys.isEmpty || allowed_keys.contains key_id

/-- C8: a session whose allowed-keys list is empty is treated as having access
to every provider key. -/
theorem C8_empty_allowed_keys_allows_all (s : Session) (key_id : String)
    (h : s.allowed_keys = []) : key_is_allowed s.allowed_keys key_id = true := by
  simp [key_is_allowed, h]

/-- Witness for C8: the example session has an empty allowed-keys list and is
granted access to the `openai` key. -/
theorem C8_witness : key_is_allowed exSession.allowed_keys "openai" = true :=
  C8_empty_allowed_keys_allows_all exSession "openai" rfl

/-- The limit parsing of the restrictions save (source lines 1951-1962):
`none` embeds `int()` raising `ValueError` (caught, limit set to 0); a parsed
value is clamped below by 0 via `max(0, ...)`. -/
def parsed_limit : Option Int → Int
  | none => 0
  | some v => max 0 v

/-- The effect of the restrictions save on the duration and rate limits
(source lines 1951-1962). -/
def save_restriction_limits (duration_entry rate_entry : Option Int) (s : Session) :
    Session :=
  { s with max_duration := parsed_limit duration_entry,
           rate_limit := parsed_limit rate_entry }

/-- C9: a max-duration or rate-limit entry that does not parse as an integer
silently sets that limit to 0 (unlimited), and a negative parsed value is
clamped to 0 (also unlimited). -/
theorem C9_invalid_limits_become_unlimited (s : Session) (d r : Option Int)
    (v : Int) (hv : v < 0) :
    (save_restriction_limits none r s).max_duration = 0
    ∧ (save_restriction_limits d none s).rate_limit = 0
    ∧ (save_restriction_limits (some v) r s).max_duration = 0
    ∧ (save_restriction_limits d (some v) s).rate_limit = 0 := by
  refine ⟨rfl, rfl, ?_, ?_⟩ <;>
    simp [save_restriction_limits, parsed_limit, max_eq_left (le_of_lt hv)]

/-- Witness for C9 at concrete entries: unparsable text and the value -5. -/
theorem C9_witness :
    (save_restriction_limits none (some 3) exSession).max_duration = 0
    ∧ (save_restriction_limits (some 3) none exSession).rate_limit = 0
    ∧ (save_restriction_limits (some (-5)) (some 3) exSession).max_duration = 0
    ∧ (save_restriction_limits (some 3) (some (-5)) exSession).rate_limit = 0 :=
  C9_invalid_limits_become_unlimited exSession (some 3) (some 3) (-5) (by decide)

/-- The dashboard Protected percentage (source lines 1008-1013): guarded by
`total_potential > 0`, otherwise 0. -/
def protection_pct (total_saved total_spent : ℚ) : ℚ :=
  if total_saved + total_spent > 0 then total_saved / (total_saved + total_spent) * 100
  else 0

/-- The monitor block-rate display (source lines 2425-2430): guarded by
`total_requests > 0`, otherwise shown as 0%. -/
def monitor_block_rate (total_requests blocked_requests : Nat) : ℚ :=
  if total_requests > 0 then ((blocked_requests : ℚ) / (total_requests : ℚ)) * 100
  else 0

/-- C10: the Protected percentage is `saved/(saved+spent)*100` exactly when
the denominator is positive and 0 otherwise, and the block rate is
`blocked/total*100` exactly when `total_requests > 0` and 0 otherwise; in both
cases the guarded value stays between 0 and 100, so no stats computation
divides by zero. -/
theorem C10_stats_division_safe (saved spent : ℚ) (hs : 0 ≤ saved)
    (hp : 0 ≤ spent) (t b : Nat) (hb : b ≤ t) :
    (saved + spent = 0 → protection_pct saved spent = 0)
    ∧ (0 < saved + spent →
        protection_pct saved spent = saved / (saved + spent) * 100)
    ∧ 0 ≤ protection_pct saved spent ∧ protection_pct saved spent ≤ 100
    ∧ (t = 0 → monitor_block_rate t b = 0)
    ∧ (0 < t → monitor_block_rate t b = ((b : ℚ) / (t : ℚ)) * 100)
    ∧ 0 ≤ monitor_block_rate t b ∧ monitor_block_rate t b ≤ 100 := by
  have hbounds : 0 ≤ protection_pct saved spent ∧ protection_pct saved spent ≤ 100 := by
    unfold protection_pct
    split
    · rename_i hpos
      have h1 : saved / (saved + spent) ≤ 1 :=
        (div_le_one hpos).mpr (le_add_of_nonneg_right hp)
      have h0 : 0 ≤ saved / (saved + spent) := div_nonneg hs (le_of_lt hpos)
      constructor <;> nlinarith
    · norm_num
  have hrate : 0 ≤ monitor_block_rate t b ∧ monitor_block_rate t b ≤ 100 := by
    unfold monitor_block_rate
    split
    · rename_i hpos
      have htq : (0 : ℚ) < (t : ℚ) := by exact_mod_cast hpos
      have hbq : (b : ℚ) ≤ (t : ℚ) := by exact_mod_cast hb
      have h1 : (b : ℚ) / (t : ℚ) ≤ 1 := (div_le_one htq).mpr hbq
      have h0 : 0 ≤ (b : ℚ) / (t : ℚ) := div_nonneg (by positivity) (le_of_lt htq)
      constructor <;> nlinarith
    · norm_num
  refine ⟨?_, ?_, hbounds.1, hbounds.2, ?_, ?_, hrate.1, hrate.2⟩
  · intro h
    simp [protection_pct, h]
  · intro h
    simp [protection_pct, h]
  · intro h
    simp [monitor_block_rate, h]
  · intro h
    simp [monitor_block_rate, h]

/-- Witness for C10 at saved = 1, spent = 3, 4 requests of which 1 blocked. -/
theorem C10_witness :
    ((1 : ℚ) + 3 = 0 → protection_pct 1 3 = 0)
    ∧ ((0 : ℚ) < 1 + 3 → protection_pct 1 3 = 1 / (1 + 3) * 100)
    ∧ 0 ≤ protection_pct 1 3 ∧ protection_pct 1 3 ≤ 100
    ∧ (4 = 0 → monitor_block_rate 4 1 = 0)
    ∧ (0 < 4 → monitor_block_rate 4 1 = ((1 : ℚ) / (4 : ℚ)) * 100)
    ∧ 0 ≤ monitor_block_rate 4 1 ∧ monitor_block_rate 4 1 ≤ 100 :=
  C10_stats_division_safe 1 3 (by norm_num) (by norm_num) 4 1 (by norm_num)

end APIBouncer
